import Mathlib

/-!
Verification development for the Whisper Transcriber desktop application
(`src/transcriber.py`).

The program has two components:

* `WhisperWorker` (a `QThread`): given an audio path and a model name, its
  `run` method checks file existence, loads the model, runs inference,
  writes the transcript to `<basename>_<model>_transcript.txt`, and emits
  four pyqt signals (`started_transcription`, `progress_update`,
  `transcription_complete`, `transcription_error`).
* `TranscriberApp` (a `QMainWindow`): a form holding a read-only path
  field, a model combo box, a start button, a status label and an output
  log; it validates input, spawns the worker, and handles its signals.

We embed the worker's `run` as a pure function from an explicit effect
environment (`RunEnv`, describing the outcomes of `os.path.exists`,
`whisper.load_model`, `model.transcribe` and the output-file write) to the
list of emitted signals plus the successfully written file, and the app as
a state machine (`AppState`, `step`) whose side effects (spawning the
worker thread, message boxes) are returned as an explicit `Effect` list.
-/

/- ## Path helpers (`os.path.basename`, `os.path.splitext`) -/

/-- The ASCII single-quote character, used in the worker's
file-not-found message (`f"Audio file not found at '{path}'."`). -/
def squoteChar : Char := Char.ofNat 39

/-- Single-quote as a one-character string. -/
def squote : String := String.singleton squoteChar

/-- POSIX `os.path.basename`: the suffix of the path after the last `/`
(the whole path when it has no `/`). -/
def basename (p : String) : String :=
  String.mk ((p.data.reverse.takeWhile (fun c => c ≠ '/')).reverse)

/-- Index of the last occurrence of `.` in a character list, if any. -/
def lastDotIdx : List Char → Option Nat
  | [] => none
  | a :: as =>
    match lastDotIdx as with
    | some i => some (i + 1)
    | none => if a = '.' then some 0 else none

/-- The first component of Python's `os.path.splitext` on a slash-free
file name: cut at the last dot, except that a dot at position 0, or a
dot preceded only by dots, starts no extension (so `.bashrc` and `..b`
keep their dots).  Mirrors `genericpath._splitext` with
`filenameIndex = 0`. -/
def splitextStem (name : String) : String :=
  match lastDotIdx name.data with
  | none => name
  | some i =>
    if 0 < i ∧ ¬ (name.data.take i).all (fun c => c = '.') then
      String.mk (name.data.take i)
    else
      name

/-- The output file name computed in `WhisperWorker.run` (lines 66-67):
`base_name = os.path.splitext(os.path.basename(audio_path))[0]` and
`output_filename = f"{base_name}_{model_name}_transcript.txt"`.  The
name is relative, so `open` creates it in the current working
directory. -/
def outputFilename (audio_path model_name : String) : String :=
  let base_name := splitextStem (basename audio_path)
  base_name ++ "_" ++ model_name ++ "_transcript.txt"

/- ## The worker thread (`WhisperWorker`) -/

/-- The four pyqt signals declared on `WhisperWorker`, each carrying one
string payload. -/
inductive Signal where
  | started_transcription (msg : String)
  | progress_update (msg : String)
  | transcription_complete (msg : String)
  | transcription_error (msg : String)
deriving DecidableEq

/-- Outcomes of the external effects performed by `WhisperWorker.run`:
`fileExists` is `os.path.exists(audio_path)`; `loadModel` is
`whisper.load_model(model_name)` (returning the device string, or the
exception's message); `transcribe` is `model.transcribe(...)["text"]`
(the transcript, or the exception's message); `elapsedStr` is the
`f"{elapsed_time:.2f}"` rendering of the wall-clock time; `writeResult`
is the outcome of `open`/`f.write` on the output file. -/
structure RunEnv where
  fileExists : Bool
  loadModel : Except String String
  transcribe : Except String String
  elapsedStr : String
  writeResult : Except String Unit

/-- Message of the early-return branch: `f"Audio file not found at
'{audio_path}'."`. -/
def notFoundMsg (audio_path : String) : String :=
  "Audio file not found at " ++ squote ++ audio_path ++ squote ++ "."

/-- Payload of `started_transcription`. -/
def loadingMsg (model_name : String) : String :=
  "Loading Whisper model: " ++ model_name ++ "..."

/-- Payload of `progress_update`. -/
def progressMsg (device : String) : String :=
  "Model loaded successfully. Running on device: " ++ device ++
    ". Starting transcription..."

/-- Message of the `except` handler: `f"An unexpected error occurred:
{e}. Check FFmpeg installation and file permissions."`. -/
def unexpectedErrorMsg (e : String) : String :=
  "An unexpected error occurred: " ++ e ++
    ". Check FFmpeg installation and file permissions."

/-- Payload of `transcription_complete` (lines 72-74). -/
def summaryMsg (elapsedStr output_filename full_transcript : String) : String :=
  "Transcription complete in " ++ elapsedStr ++ " seconds.\n" ++
    "Result saved to: " ++ output_filename ++ "\n\n" ++
    "Full Transcript:\n" ++ full_transcript

/-- `WhisperWorker.run` (lines 32-81): returns the signals it emits, in
emission order, together with the file write it completed (`some
(output_filename, contents)` exactly when the `f.write` on line 70 ran
and returned). -/
def WhisperWorker.run (audio_path model_name : String) (env : RunEnv) :
    List Signal × Option (String × String) :=
  if env.fileExists = false then
    ([Signal.transcription_error (notFoundMsg audio_path)], none)
  else
    let ev0 := Signal.started_transcription (loadingMsg model_name)
    match env.loadModel with
    | Except.error e =>
        ([ev0, Signal.transcription_error (unexpectedErrorMsg e)], none)
    | Except.ok device =>
      let ev1 := Signal.progress_update (progressMsg device)
      match env.transcribe with
      | Except.error e =>
          ([ev0, ev1, Signal.transcription_error (unexpectedErrorMsg e)], none)
      | Except.ok full_transcript =>
        let output_filename := outputFilename audio_path model_name
        match env.writeResult with
        | Except.error e =>
            ([ev0, ev1, Signal.transcription_error (unexpectedErrorMsg e)], none)
        | Except.ok _ =>
          let summary := summaryMsg env.elapsedStr output_filename full_transcript
          ([ev0, ev1, Signal.transcription_complete summary],
           some (output_filename, full_transcript))

/- ## The application shell (`TranscriberApp`) -/

/-- The observable state of the `TranscriberApp` window: the enabled flag
of each input control, the start button's text, the progress bar's
visibility, the status label, the output log, the path field's text, the
combo box's current text, and the active worker reference
(`self.worker`, holding the `(audio_path, model_name)` pair the worker
was constructed with). -/
structure AppState where
  browse_btn_enabled : Bool
  path_input_enabled : Bool
  model_combo_enabled : Bool
  transcribe_btn_enabled : Bool
  transcribe_btn_text : String
  progress_bar_visible : Bool
  status_label : String
  output_text : String
  path_input : String
  model_combo : String
  worker : Option (String × String)
deriving DecidableEq

/-- Side effects the shell performs besides mutating its own widgets:
starting a worker thread, and the two `QMessageBox` dialogs. -/
inductive Effect where
  | spawn_worker (audio_path model_name : String)
  | warning_box (title msg : String)
  | critical_box (title msg : String)
deriving DecidableEq

/-- The items passed to `self.model_combo.addItems` (line 160). -/
def modelItems : List String := ["base", "small", "medium", "large-v2"]

/-- `TranscriberApp.update_ui_state` (lines 224-238). -/
def update_ui_state (s : AppState) (is_ready : Bool) : AppState :=
  let s1 := { s with
    browse_btn_enabled := is_ready
    path_input_enabled := is_ready
    model_combo_enabled := is_ready
    transcribe_btn_enabled := is_ready }
  if is_ready then
    { s1 with
        transcribe_btn_text := "Start Transcription"
        progress_bar_visible := false }
  else
    { s1 with
        transcribe_btn_text := "Processing..."
        progress_bar_visible := true }

/-- The state after `__init__`/`init_ui`: `self.worker = None`, empty
path field, combo items with `setCurrentText("medium")`, status label
`"Ready to transcribe."`, then `update_ui_state(True)` and the
prerequisite note in the output log (lines 86-210). -/
def initState : AppState :=
  { update_ui_state
      { browse_btn_enabled := true
        path_input_enabled := true
        model_combo_enabled := true
        transcribe_btn_enabled := true
        transcribe_btn_text := "Start Transcription"
        progress_bar_visible := false
        status_label := "Ready to transcribe."
        output_text := ""
        path_input := ""
        model_combo := "medium"
        worker := none } true with
    output_text := "⚠️ **Prerequisite:** Ensure FFmpeg is installed and accessible on your system for Whisper to process audio files correctly." }

/-- `TranscriberApp.select_audio_file` (lines 212-222): `filepath` is
what `QFileDialog.getOpenFileName` returned (the empty string when the
dialog was cancelled); the path field is set only when it is
non-empty. -/
def select_audio_file (s : AppState) (filepath : String) : AppState :=
  if filepath ≠ "" then { s with path_input := filepath } else s

/-- `TranscriberApp.start_transcription` (lines 240-264).  `path_exists`
is the value of `os.path.exists(self.path_input.text())` at the moment
of the call.  On an empty or missing path it shows a warning box and
returns; otherwise it disables the UI, clears the log, sets the status
label, stores the new worker in `self.worker` and starts it. -/
def start_transcription (s : AppState) (path_exists : Bool) : AppState × List Effect :=
  let audio_path := s.path_input
  let model_name := s.model_combo
  if audio_path = "" ∨ path_exists = false then
    (s, [Effect.warning_box "Input Error"
          "Please select a valid audio file before starting transcription."])
  else
    let s1 := update_ui_state s false
    let s2 := { s1 with
        output_text := ""
        status_label := "Starting process..." }
    ({ s2 with worker := some (audio_path, model_name) },
     [Effect.spawn_worker audio_path model_name])

/-- `TranscriberApp.handle_started` (lines 268-270). -/
def handle_started (s : AppState) (message : String) : AppState :=
  { s with status_label := message }

/-- `TranscriberApp.handle_progress` (lines 272-274). -/
def handle_progress (s : AppState) (message : String) : AppState :=
  { s with status_label := message }

/-- `TranscriberApp.handle_complete` (lines 276-283). -/
def handle_complete (s : AppState) (summary : String) : AppState :=
  let s1 := { s with
      output_text := summary
      status_label := "✅ Transcription Finished! Output saved to disk." }
  { update_ui_state s1 true with worker := none }

/-- `TranscriberApp.handle_error` (lines 285-291): updates the status
label, shows a critical box, restores the UI and clears the worker. -/
def handle_error (s : AppState) (message : String) : AppState × List Effect :=
  let s1 := { s with status_label := "ERROR: " ++ message }
  ({ update_ui_state s1 true with worker := none },
   [Effect.critical_box "Transcription Error" message])

/-- The stimuli the window reacts to: the two button clicks and the
combo selection (each delivered by Qt only while the corresponding
widget is enabled — a disabled widget emits no `clicked`/selection
signal), and the four worker signals dispatched to the connected
slots.  `browseChosen` carries the file-dialog result; `clickStart`
carries the value of `os.path.exists` on the current path. -/
inductive UIEvent where
  | browseChosen (filepath : String)
  | clickStart (path_exists : Bool)
  | selectModel (m : String)
  | workerStarted (msg : String)
  | workerProgress (msg : String)
  | workerComplete (summary : String)
  | workerError (msg : String)

/-- One dispatch of a UI event: widget interactions are gated on the
widget being enabled (Qt drops clicks on disabled widgets; a non-
editable combo box only offers its items), worker signals run the
connected handler. -/
def step (s : AppState) : UIEvent → AppState × List Effect
  | UIEvent.browseChosen filepath =>
      if s.browse_btn_enabled then (select_audio_file s filepath, []) else (s, [])
  | UIEvent.clickStart path_exists =>
      if s.transcribe_btn_enabled then start_transcription s path_exists else (s, [])
  | UIEvent.selectModel m =>
      if s.model_combo_enabled ∧ m ∈ modelItems then
        ({ s with model_combo := m }, [])
      else (s, [])
  | UIEvent.workerStarted msg => (handle_started s msg, [])
  | UIEvent.workerProgress msg => (handle_progress s msg, [])
  | UIEvent.workerComplete summary => (handle_complete s summary, [])
  | UIEvent.workerError msg => handle_error s msg

/-- States the window can be in: the initial state and everything
reachable from it by dispatching events. -/
inductive Reachable : AppState → Prop
  | init : Reachable initState
  | next (s : AppState) (ev : UIEvent) : Reachable s → Reachable (step s ev).1

/- ## Invariant: a live worker reference means the inputs are disabled -/

/-- The busy-state consistency invariant: either no worker is stored, or
all four input controls are disabled. -/
def busyOk (s : AppState) : Prop :=
  s.worker = none ∨
    (s.browse_btn_enabled = false ∧ s.path_input_enabled = false ∧
     s.model_combo_enabled = false ∧ s.transcribe_btn_enabled = false)

/-- Every event dispatch preserves `busyOk`: `start_transcription`
disables the controls in the same dispatch in which it sets
`self.worker`, the terminal handlers re-enable them in the same dispatch
in which they clear it, and no other handler touches either side. -/
theorem busyOk_step (s : AppState) (ev : UIEvent) (h : busyOk s) :
    busyOk (step s ev).1 := by
  cases ev with
  | browseChosen filepath =>
      simp only [step]
      split
      · simp only [select_audio_file]
        split
        · exact h
        · exact h
      · exact h
  | clickStart path_exists =>
      simp only [step]
      split
      · simp only [start_transcription]
        split
        · exact h
        · exact Or.inr ⟨rfl, rfl, rfl, rfl⟩
      · exact h
  | selectModel m =>
      simp only [step]
      split
      · exact h
      · exact h
  | workerStarted msg => exact h
  | workerProgress msg => exact h
  | workerComplete summary => exact Or.inl rfl
  | workerError msg => exact Or.inl rfl

/-- `busyOk` holds in every reachable state. -/
theorem reachable_busyOk (s : AppState) (h : Reachable s) : busyOk s := by
  induction h with
  | init => exact Or.inl rfl
  | next s ev hr ih => exact busyOk_step s ev ih

/-- In every reachable state, an active worker reference goes along with
all four input controls disabled. -/
theorem reachable_busy_disabled (s : AppState) (h : Reachable s)
    (hw : s.worker ≠ none) :
    s.browse_btn_enabled = false ∧ s.path_input_enabled = false ∧
    s.model_combo_enabled = false ∧ s.transcribe_btn_enabled = false :=
  (reachable_busyOk s h).resolve_left hw

/- ## Concrete environments used by the witnesses -/

/-- A fully successful run environment: the file exists, the model loads
on device `cpu`, inference returns a transcript, and the write
succeeds. -/
def envSuccess : RunEnv :=
  { fileExists := true
    loadModel := Except.ok "cpu"
    transcribe := Except.ok " Hello world."
    elapsedStr := "12.34"
    writeResult := Except.ok () }

/-- An environment where inference raises an exception whose message is
`disk full`. -/
def envDiskFull : RunEnv :=
  { fileExists := true
    loadModel := Except.ok "cpu"
    transcribe := Except.error "disk full"
    elapsedStr := "0.00"
    writeResult := Except.ok () }

/-- An environment where `os.path.exists` reports the audio file
missing. -/
def envMissingFile : RunEnv :=
  { fileExists := false
    loadModel := Except.ok "cpu"
    transcribe := Except.ok ""
    elapsedStr := "0.00"
    writeResult := Except.ok () }

/- ## Claims about the worker -/

/-- C1: on every successful run with input path `p` and model name `m`,
the file written is named `<basename-without-extension(p)>_<m>_transcript.txt`
(a relative name, hence in the current working directory), and for
`sample.wav` with model `balanced` that name is
`sample_balanced_transcript.txt`. -/
theorem run_output_filename (p m dev txt : String) (env : RunEnv)
    (h1 : env.fileExists = true) (h2 : env.loadModel = Except.ok dev)
    (h3 : env.transcribe = Except.ok txt) (h4 : env.writeResult = Except.ok ()) :
    (WhisperWorker.run p m env).2.map Prod.fst = some (outputFilename p m) ∧
    outputFilename p m = splitextStem (basename p) ++ "_" ++ m ++ "_transcript.txt" ∧
    outputFilename "sample.wav" "balanced" = "sample_balanced_transcript.txt" := by
  refine ⟨?_, rfl, by decide⟩
  simp [WhisperWorker.run, h1, h2, h3, h4]

/-- Witness for C1: a successful run on `sample.wav` with model
`balanced` writes `sample_balanced_transcript.txt`. -/
theorem run_output_filename_witness :
    (WhisperWorker.run "sample.wav" "balanced" envSuccess).2.map Prod.fst =
        some (outputFilename "sample.wav" "balanced") ∧
    outputFilename "sample.wav" "balanced" =
        splitextStem (basename "sample.wav") ++ "_" ++ "balanced" ++ "_transcript.txt" ∧
    outputFilename "sample.wav" "balanced" = "sample_balanced_transcript.txt" :=
  run_output_filename "sample.wav" "balanced" "cpu" " Hello world." envSuccess
    rfl rfl rfl rfl

/-- C2: on every successful run, the completed write is exactly the pair
(output file name, transcript text returned by the engine): the file
exists afterwards and its contents are the transcript, nothing more. -/
theorem run_writes_exact_transcript (p m dev txt : String) (env : RunEnv)
    (h1 : env.fileExists = true) (h2 : env.loadModel = Except.ok dev)
    (h3 : env.transcribe = Except.ok txt) (h4 : env.writeResult = Except.ok ()) :
    (WhisperWorker.run p m env).2 = some (outputFilename p m, txt) := by
  simp [WhisperWorker.run, h1, h2, h3, h4]

/-- Witness for C2: the successful run on `sample.wav` writes the
transcript ` Hello world.` verbatim to `sample_balanced_transcript.txt`. -/
theorem run_writes_exact_transcript_witness :
    (WhisperWorker.run "sample.wav" "balanced" envSuccess).2 =
      some (outputFilename "sample.wav" "balanced", " Hello world.") :=
  run_writes_exact_transcript "sample.wav" "balanced" "cpu" " Hello world."
    envSuccess rfl rfl rfl rfl

/-- C4: when model load or inference raises an exception with message
`e`, the run ends with a `transcription_error` signal whose message
contains `e` (between the fixed prefix `An unexpected error occurred: `
and suffix `. Check FFmpeg installation and file permissions.`), and the
output-file write is skipped, so the run produces no output file. -/
theorem run_exception_skips_write (p m e : String) (env : RunEnv)
    (h1 : env.fileExists = true)
    (h : env.loadModel = Except.error e ∨
         ∃ d, env.loadModel = Except.ok d ∧ env.transcribe = Except.error e) :
    (∃ evs, (WhisperWorker.run p m env).1 =
        evs ++ [Signal.transcription_error
          ("An unexpected error occurred: " ++ e ++
           ". Check FFmpeg installation and file permissions.")]) ∧
    (WhisperWorker.run p m env).2 = none := by
  rcases h with h | ⟨d, hd, ht⟩
  · refine ⟨⟨[Signal.started_transcription (loadingMsg m)], ?_⟩, ?_⟩
    · simp [WhisperWorker.run, h1, h, unexpectedErrorMsg]
    · simp [WhisperWorker.run, h1, h]
  · refine ⟨⟨[Signal.started_transcription (loadingMsg m),
              Signal.progress_update (progressMsg d)], ?_⟩, ?_⟩
    · simp [WhisperWorker.run, h1, hd, ht, unexpectedErrorMsg]
    · simp [WhisperWorker.run, h1, hd, ht]

/-- Witness for C4: an inference exception `disk full` yields a final
error signal containing `disk full` and no written file. -/
theorem run_exception_skips_write_witness :
    (∃ evs, (WhisperWorker.run "sample.wav" "medium" envDiskFull).1 =
        evs ++ [Signal.transcription_error
          ("An unexpected error occurred: " ++ "disk full" ++
           ". Check FFmpeg installation and file permissions.")]) ∧
    (WhisperWorker.run "sample.wav" "medium" envDiskFull).2 = none :=
  run_exception_skips_write "sample.wav" "medium" "disk full" envDiskFull
    rfl (Or.inr ⟨"cpu", rfl, rfl⟩)

/-- The lifecycle shape asserted by C6 as stated: the emitted signal list
is exactly started, then progress, then one terminal signal. -/
def fullLifecycle (evs : List Signal) : Prop :=
  ∃ a b t, evs = [Signal.started_transcription a, Signal.progress_update b, t] ∧
    ((∃ c, t = Signal.transcription_complete c) ∨
     (∃ e, t = Signal.transcription_error e))

/-- Counterexample to C6 as stated: when the audio file does not exist,
the run emits only a `transcription_error` signal — neither
`started_transcription` nor `progress_update` precedes the terminal
signal. -/
theorem run_lifecycle_counterexample :
    ¬ fullLifecycle (WhisperWorker.run "missing.wav" "medium" envMissingFile).1 := by
  intro hf
  obtain ⟨a, b, t, heq, -⟩ := hf
  simp [WhisperWorker.run, envMissingFile] at heq

/-- C6 (amended): every run emits exactly one terminal signal, always
last, preceded in order by a prefix of started-then-progress: the full
sequence started, progress, terminal on runs that reach inference, while
started and/or progress are skipped when the run fails before reaching
them (missing file, or model-load exception). -/
theorem run_signal_order (p m : String) (env : RunEnv) :
    (∃ e, (WhisperWorker.run p m env).1 = [Signal.transcription_error e]) ∨
    (∃ a e, (WhisperWorker.run p m env).1 =
        [Signal.started_transcription a, Signal.transcription_error e]) ∨
    (∃ a b e, (WhisperWorker.run p m env).1 =
        [Signal.started_transcription a, Signal.progress_update b,
         Signal.transcription_error e]) ∨
    (∃ a b c, (WhisperWorker.run p m env).1 =
        [Signal.started_transcription a, Signal.progress_update b,
         Signal.transcription_complete c]) := by
  obtain ⟨fe, lm, tr, el, wr⟩ := env
  cases fe with
  | false => exact Or.inl ⟨_, rfl⟩
  | true =>
    cases lm with
    | error e => exact Or.inr (Or.inl ⟨_, _, rfl⟩)
    | ok d =>
      cases tr with
      | error e => exact Or.inr (Or.inr (Or.inl ⟨_, _, _, rfl⟩))
      | ok t =>
        cases wr with
        | error e => exact Or.inr (Or.inr (Or.inl ⟨_, _, _, rfl⟩))
        | ok u => exact Or.inr (Or.inr (Or.inr ⟨_, _, _, rfl⟩))

/- ## Claims about the application shell -/

/-- C3: when `start_transcription` runs with an empty path field or a
path that does not exist, the window state is unchanged (no worker is
stored, every control keeps its enabled state) and the only effect is
the local validation warning box — no worker thread is spawned. -/
theorem start_rejects_invalid_path (s : AppState) (path_exists : Bool)
    (h : s.path_input = "" ∨ path_exists = false) :
    start_transcription s path_exists =
      (s, [Effect.warning_box "Input Error"
            "Please select a valid audio file before starting transcription."]) := by
  rcases h with h | h
  · simp [start_transcription, h]
  · simp [start_transcription, h]

/-- Witness for C3: starting from the initial state (empty path field)
leaves the state unchanged and shows only the warning box. -/
theorem start_rejects_invalid_path_witness :
    initState.path_input = "" ∧
    start_transcription initState false =
      (initState, [Effect.warning_box "Input Error"
            "Please select a valid audio file before starting transcription."]) :=
  ⟨rfl, start_rejects_invalid_path initState false (Or.inl rfl)⟩

/-- C5: in every reachable state holding an active worker, all four
input controls are disabled, and dispatching a start click is a no-op
(state unchanged, no effect — in particular no second worker spawned),
because Qt delivers no click from the disabled start button. -/
theorem busy_start_noop (s : AppState) (h : Reachable s)
    (hw : s.worker ≠ none) (path_exists : Bool) :
    (s.browse_btn_enabled = false ∧ s.path_input_enabled = false ∧
     s.model_combo_enabled = false ∧ s.transcribe_btn_enabled = false) ∧
    step s (UIEvent.clickStart path_exists) = (s, []) := by
  have hd := reachable_busy_disabled s h hw
  refine ⟨hd, ?_⟩
  simp [step, hd.2.2.2]

/-- A concrete busy state: browse to `audio.wav`, then start (with the
file present). -/
def busyDemoState : AppState :=
  (step (step initState (UIEvent.browseChosen "audio.wav")).1
    (UIEvent.clickStart true)).1

/-- Witness for C5: in the concrete busy state all controls are disabled
and a further start click changes nothing. -/
theorem busy_start_noop_witness :
    (busyDemoState.browse_btn_enabled = false ∧
     busyDemoState.path_input_enabled = false ∧
     busyDemoState.model_combo_enabled = false ∧
     busyDemoState.transcribe_btn_enabled = false) ∧
    step busyDemoState (UIEvent.clickStart true) = (busyDemoState, []) :=
  busy_start_noop busyDemoState
    (Reachable.next _ _ (Reachable.next _ _ Reachable.init))
    (by decide) true

/-- C7: both terminal handlers — `handle_complete` on
`transcription_complete` and `handle_error` on `transcription_error` —
re-enable all four input controls and clear `self.worker` to `None`. -/
theorem terminal_restores_ui (s : AppState) (m : String) :
    ((step s (UIEvent.workerComplete m)).1.browse_btn_enabled = true ∧
     (step s (UIEvent.workerComplete m)).1.path_input_enabled = true ∧
     (step s (UIEvent.workerComplete m)).1.model_combo_enabled = true ∧
     (step s (UIEvent.workerComplete m)).1.transcribe_btn_enabled = true ∧
     (step s (UIEvent.workerComplete m)).1.worker = none) ∧
    ((step s (UIEvent.workerError m)).1.browse_btn_enabled = true ∧
     (step s (UIEvent.workerError m)).1.path_input_enabled = true ∧
     (step s (UIEvent.workerError m)).1.model_combo_enabled = true ∧
     (step s (UIEvent.workerError m)).1.transcribe_btn_enabled = true ∧
     (step s (UIEvent.workerError m)).1.worker = none) :=
  ⟨⟨rfl, rfl, rfl, rfl, rfl⟩, ⟨rfl, rfl, rfl, rfl, rfl⟩⟩

/-- C8: the model combo box offers exactly the four fixed model-size
strings `base`, `small`, `medium`, `large-v2`, and the pre-selected
default is `medium` — the choice the source singles out as the best
accuracy/speed trade-off (the balanced choice). -/
theorem model_combo_enumeration :
    modelItems = ["base", "small", "medium", "large-v2"] ∧
    modelItems.length = 4 ∧
    initState.model_combo = "medium" ∧
    "medium" ∈ modelItems := by
  refine ⟨rfl, rfl, rfl, ?_⟩
  simp [modelItems]

/-- C9: the output file name depends only on the input path's basename
(and the model name): two paths with the same basename yield the same
output file name. -/
theorem output_filename_depends_on_basename (p1 p2 m : String)
    (h : basename p1 = basename p2) :
    outputFilename p1 m = outputFilename p2 m := by
  unfold outputFilename
  rw [h]

/-- Witness for C9: `/home/a/sample.wav` and `/tmp/b/sample.wav` share
the basename `sample.wav` and map to the same output file name. -/
theorem output_filename_depends_on_basename_witness :
    basename "/home/a/sample.wav" = basename "/tmp/b/sample.wav" ∧
    outputFilename "/home/a/sample.wav" "medium" =
      outputFilename "/tmp/b/sample.wav" "medium" :=
  ⟨by decide,
   output_filename_depends_on_basename "/home/a/sample.wav" "/tmp/b/sample.wav"
     "medium" (by decide)⟩

/-- C10: the non-terminal handlers `handle_started` and
`handle_progress` set only the status label: the dispatched state equals
the old state with just `status_label` replaced, and in particular every
control's enabled flag, the worker reference and the output log are
untouched, with no side effect. -/
theorem nonterminal_frame (s : AppState) (m : String) :
    step s (UIEvent.workerStarted m) = ({ s with status_label := m }, []) ∧
    step s (UIEvent.workerProgress m) = ({ s with status_label := m }, []) ∧
    (step s (UIEvent.workerStarted m)).1.browse_btn_enabled = s.browse_btn_enabled ∧
    (step s (UIEvent.workerStarted m)).1.path_input_enabled = s.path_input_enabled ∧
    (step s (UIEvent.workerStarted m)).1.model_combo_enabled = s.model_combo_enabled ∧
    (step s (UIEvent.workerStarted m)).1.transcribe_btn_enabled = s.transcribe_btn_enabled ∧
    (step s (UIEvent.workerStarted m)).1.worker = s.worker ∧
    (step s (UIEvent.workerStarted m)).1.output_text = s.output_text ∧
    (step s (UIEvent.workerProgress m)).1.browse_btn_enabled = s.browse_btn_enabled ∧
    (step s (UIEvent.workerProgress m)).1.path_input_enabled = s.path_input_enabled ∧
    (step s (UIEvent.workerProgress m)).1.model_combo_enabled = s.model_combo_enabled ∧
    (step s (UIEvent.workerProgress m)).1.transcribe_btn_enabled = s.transcribe_btn_enabled ∧
    (step s (UIEvent.workerProgress m)).1.worker = s.worker ∧
    (step s (UIEvent.workerProgress m)).1.output_text = s.output_text :=
  ⟨rfl, rfl, rfl, rfl, rfl, rfl, rfl, rfl, rfl, rfl, rfl, rfl, rfl, rfl⟩
